import Mathlib

/-!
Shallow embedding of the marshaling layer of the bimg libvips binding
(`vips.go`) and proofs about the claims of its specification.

The Go file delegates all image work to native libvips calls.  We model the
native side as oracles: each native entry point is represented by a
`NativeCall` record carrying the status code it returns, the text sitting in
the libvips error buffer, and the handle or pointer it produces.  Each Go
function is embedded as a pure Lean function from its arguments and oracles to
its result together with a trace of the observable native-interaction events
(calls, `g_object_unref`s, frees, buffer copies), in the order the Go code
performs them (deferred statements run last, in LIFO order, with their
arguments evaluated at `defer` time, exactly as in Go).
-/

set_option autoImplicit false

namespace Bimg

/-- Modelled from the spec: the `ImageType` enumeration of container formats
lives in the repository outside the marshaling file (only its use sites are in
`vips.go`).  Constructors are listed in the order of the Go constants, with
`UNKNOWN` first (the zero value, which is why `vipsSave` tests `o.Type != 0`
against it). -/
inductive ImageType where
  | UNKNOWN
  | JPEG
  | WEBP
  | PNG
  | TIFF
  | GIF
  | PDF
  | SVG
  | MAGICK
  | HEIF
  | AVIF
  | JP2K
  | JXL
deriving DecidableEq, Repr

/-- Names of the native entry points invoked by the marshaling layer. -/
inductive CallName where
  | vipsInit
  | cacheSetMaxMem
  | cacheSetMax
  | concurrencySet
  | enableCacheTrace
  | vipsShutdownNative
  | vipsInitImage
  | arrayDoubleNew
  | rotateBridge
  | flipBridge
  | zoomBridge
  | watermarkNative
  | watermarkImageNative
  | extractAreaBridge
  | smartcropBridge
  | embedBridge
  | shrinkvBridge
  | shrinkhBridge
  | shrinkBridge
  | colourspaceIssupportedBridge
  | removeProfileNative
  | colourspaceBridge
  | iccTransformWithDefaultBridge
  | iccTransformBridge
  | hasProfileEmbedNative
  | imageRemoveNative
  | keepCopyrightNative
  | webpsaveBridge
  | pngsaveBridge
  | tiffsaveBridge
  | heifsaveBridge
  | avifsaveBridge
  | gifsaveBridge
  | jp2ksaveBridge
  | jxlsaveBridge
  | jpegsaveBridge
  | imageGetBlobNative
  | getRgbaPixelsNative
deriving DecidableEq, Repr

/-- Observable events at the FFI boundary.  Handles and pointers are modelled
as natural numbers; pointer `0` stands for the C nil pointer.  Call arguments
are recorded (as integers) only where a claim is about them. -/
inductive Event where
  | call (name : CallName) (args : List Int)
  | unref (handle : Nat)
  | freeMem (ptr : Nat)
  | copyOut (ptr : Nat)
  | aliasOut (ptr : Nat)
  | errClear
  | threadExit
deriving DecidableEq, Repr

/-- Oracle for one native call: the status code it returns, the text in the
libvips error buffer at that moment, and the handle or pointer it writes to
its output parameter. -/
structure NativeCall where
  status : Int
  errBuf : String
  out : Nat
deriving DecidableEq, Repr

/-- `catchVipsError` reads the libvips error buffer, clears it, and shuts the
thread context down, returning the buffer text as the error message. -/
def catchVipsError (errBuf : String) : String × List Event :=
  (errBuf, [Event.errClear, Event.threadExit])

/-- `vipsImageType` sniffs the container format from the magic bytes of the
buffer.  `supported` stands for `IsTypeSupported` (a wrapper, outside
`vips.go`, over the native `vips_type_find_bridge`), `isSVG` for
`IsSVGImage` (also outside `vips.go`), and `magickBuffer buf` for
`strings.HasSuffix(readImageType(buf), "MagickBuffer")`, whose
`vips_foreign_find_load_buffer` core is native; all three inspect state we
cannot compute, so they are parameters.  The twelve bound bytes are
`buf[0] .. buf[11]`; the `bytes.HasPrefix` tests of the JP2K and JXL branches
(patterns of length at most 12) are spelled out as byte equalities. -/
def vipsImageType (supported : ImageType → Bool) (isSVG magickBuffer : List Nat → Bool)
    (buf : List Nat) : ImageType :=
  if buf.length < 12 then .UNKNOWN
  else
    match buf with
    | b0 :: b1 :: b2 :: b3 :: b4 :: b5 :: b6 :: b7 :: b8 :: b9 :: b10 :: b11 :: _ =>
      if b0 = 0xFF ∧ b1 = 0xD8 ∧ b2 = 0xFF then .JPEG
      else if supported .GIF = true ∧ b0 = 0x47 ∧ b1 = 0x49 ∧ b2 = 0x46 then .GIF
      else if b0 = 0x89 ∧ b1 = 0x50 ∧ b2 = 0x4E ∧ b3 = 0x47 then .PNG
      else if supported .TIFF = true ∧
          ((b0 = 0x49 ∧ b1 = 0x49 ∧ b2 = 0x2A ∧ b3 = 0x0) ∨
            (b0 = 0x4D ∧ b1 = 0x4D ∧ b2 = 0x0 ∧ b3 = 0x2A)) then .TIFF
      else if supported .PDF = true ∧ b0 = 0x25 ∧ b1 = 0x50 ∧ b2 = 0x44 ∧ b3 = 0x46 then .PDF
      else if supported .WEBP = true ∧ b8 = 0x57 ∧ b9 = 0x45 ∧ b10 = 0x42 ∧ b11 = 0x50 then .WEBP
      else if supported .SVG = true ∧ isSVG buf = true then .SVG
      else if supported .MAGICK = true ∧ magickBuffer buf = true then .MAGICK
      else if supported .HEIF = true ∧ b4 = 0x66 ∧ b5 = 0x74 ∧ b6 = 0x79 ∧ b7 = 0x70 ∧
          b8 = 0x68 ∧ b9 = 0x65 ∧ b10 = 0x69 ∧ b11 = 0x63 then .HEIF
      else if supported .HEIF = true ∧ b4 = 0x66 ∧ b5 = 0x74 ∧ b6 = 0x79 ∧ b7 = 0x70 ∧
          b8 = 0x6d ∧ b9 = 0x69 ∧ b10 = 0x66 ∧ b11 = 0x31 then .HEIF
      else if supported .HEIF = true ∧ b4 = 0x66 ∧ b5 = 0x74 ∧ b6 = 0x79 ∧ b7 = 0x70 ∧
          b8 = 0x6d ∧ b9 = 0x73 ∧ b10 = 0x66 ∧ b11 = 0x31 then .HEIF
      else if supported .HEIF = true ∧ b4 = 0x66 ∧ b5 = 0x74 ∧ b6 = 0x79 ∧ b7 = 0x70 ∧
          b8 = 0x68 ∧ b9 = 0x65 ∧ b10 = 0x69 ∧ b11 = 0x73 then .HEIF
      else if supported .HEIF = true ∧ b4 = 0x66 ∧ b5 = 0x74 ∧ b6 = 0x79 ∧ b7 = 0x70 ∧
          b8 = 0x68 ∧ b9 = 0x65 ∧ b10 = 0x76 ∧ b11 = 0x63 then .HEIF
      else if supported .HEIF = true ∧ b4 = 0x66 ∧ b5 = 0x74 ∧ b6 = 0x79 ∧ b7 = 0x70 ∧
          b8 = 0x61 ∧ b9 = 0x76 ∧ b10 = 0x69 ∧ b11 = 0x66 then .AVIF
      else if supported .JP2K = true ∧
          ((b0 = 0x0 ∧ b1 = 0x0 ∧ b2 = 0x0 ∧ b3 = 0xC ∧ b4 = 0x6A ∧ b5 = 0x50 ∧
              b6 = 0x20 ∧ b7 = 0x20 ∧ b8 = 0xD ∧ b9 = 0xA ∧ b10 = 0x87 ∧ b11 = 0xA) ∨
            (b0 = 0xFF ∧ b1 = 0x4F ∧ b2 = 0xFF ∧ b3 = 0x51)) then .JP2K
      else if supported .JXL = true ∧
          ((b0 = 0xFF ∧ b1 = 0x0A) ∨
            (b0 = 0x00 ∧ b1 = 0x00 ∧ b2 = 0x00 ∧ b3 = 0x0C ∧ b4 = 0x4A ∧ b5 = 0x58 ∧
              b6 = 0x4C ∧ b7 = 0x20 ∧ b8 = 0x0D ∧ b9 = 0x0A ∧ b10 = 0x87 ∧ b11 = 0x0A)) then .JXL
      else .UNKNOWN
    | _ => .UNKNOWN

/-- The Go helper `max` from `vips.go` clamps an integer at zero via
`int(math.Max(float64(x), 0))`.  The embedding is the integer clamp, which
agrees with the Go function for every negative input and for every
non-negative input of magnitude at most `2 ^ 53`; beyond that the float64
round trip rounds the value, so the theorems that assert pass-through
restrict to the exact range.  It is declared `protected` because an
unqualified `max` would clash with the prelude. -/
protected def max (x : Int) : Int :=
  if x < 0 then 0 else x

/-- The cgo `C.int` conversion applied to every argument at the native call
boundary: the 64-bit Go int is truncated to 32 bits with two's-complement
wrap-around, so values of `2 ^ 31` or more arrive negative on the C side. -/
def cInt (x : Int) : Int :=
  (x + 2 ^ 31) % 2 ^ 32 - 2 ^ 31

/-- `boolToInt` from `vips.go`. -/
def boolToInt (b : Bool) : Int :=
  if b then 1 else 0

/-- `vipsReadCommon` result mirrors the Go triple
`(*C.VipsImage, ImageType, error)`. -/
abbrev ReadResult := Option Nat × ImageType × Option String

/-- `vipsReadCommon`: sniff the format; reject with the fixed error before any
native call when it is `UNKNOWN`; otherwise perform the single
`vips_init_image` decode call. -/
def vipsReadCommon (supported : ImageType → Bool) (isSVG magickBuffer : List Nat → Bool)
    (buf : List Nat) (frames : Int) (nc : NativeCall) : ReadResult × List Event :=
  let imageType := vipsImageType supported isSVG magickBuffer buf
  if imageType = .UNKNOWN then
    ((none, .UNKNOWN, some "Unsupported image format"), [])
  else if nc.status ≠ 0 then
    let (msg, ev) := catchVipsError nc.errBuf
    ((none, .UNKNOWN, some msg), [Event.call .vipsInitImage [frames]] ++ ev)
  else
    ((some nc.out, imageType, none), [Event.call .vipsInitImage [frames]])

/-- `vipsRead buf` is `vipsReadCommon buf 1`. -/
def vipsRead (supported : ImageType → Bool) (isSVG magickBuffer : List Nat → Bool)
    (buf : List Nat) (nc : NativeCall) : ReadResult × List Event :=
  vipsReadCommon supported isSVG magickBuffer buf 1 nc

/-- `vipsReadAll buf` is `vipsReadCommon buf (-1)`. -/
def vipsReadAll (supported : ImageType → Bool) (isSVG magickBuffer : List Nat → Bool)
    (buf : List Nat) (nc : NativeCall) : ReadResult × List Event :=
  vipsReadCommon supported isSVG magickBuffer buf (-1) nc

/-- `vipsRotate`: possibly builds a background array, performs the rotate
bridge call, and releases the input handle on every path through the deferred
`g_object_unref`.  `backgroundPresent` stands for `background != nil`. -/
def vipsRotate (image : Nat) (backgroundPresent : Bool) (nc : NativeCall) :
    Except String Nat × List Event :=
  let pre : List Event := if backgroundPresent then [Event.call .arrayDoubleNew []] else []
  if nc.status ≠ 0 then
    let (msg, ev) := catchVipsError nc.errBuf
    (Except.error msg, pre ++ [Event.call .rotateBridge []] ++ ev ++ [Event.unref image])
  else
    (Except.ok nc.out, pre ++ [Event.call .rotateBridge [], Event.unref image])

/-- `vipsFlip`: one flip bridge call; the input handle is released on every
path by the deferred unref. -/
def vipsFlip (image : Nat) (direction : Int) (nc : NativeCall) :
    Except String Nat × List Event :=
  if nc.status ≠ 0 then
    let (msg, ev) := catchVipsError nc.errBuf
    (Except.error msg, [Event.call .flipBridge [direction]] ++ ev ++ [Event.unref image])
  else
    (Except.ok nc.out, [Event.call .flipBridge [direction], Event.unref image])

/-- `vipsZoom`: one zoom bridge call; the input handle is released on every
path by the deferred unref. -/
def vipsZoom (image : Nat) (zoomFactor : Int) (nc : NativeCall) :
    Except String Nat × List Event :=
  if nc.status ≠ 0 then
    let (msg, ev) := catchVipsError nc.errBuf
    (Except.error msg, [Event.call .zoomBridge [zoomFactor]] ++ ev ++ [Event.unref image])
  else
    (Except.ok nc.out, [Event.call .zoomBridge [zoomFactor], Event.unref image])

/-- `vipsWatermark`: performs the native `vips_watermark` call.  Note that the
Go function never unrefs the borrowed `image` handle on any path (the only
deferred statements free the C strings for text and font, which are not
modelled as they do not concern image memory). -/
def vipsWatermark (image : Nat) (nc : NativeCall) : Except String Nat × List Event :=
  if nc.status ≠ 0 then
    let (msg, ev) := catchVipsError nc.errBuf
    (Except.error msg, [Event.call .watermarkNative []] ++ ev)
  else
    (Except.ok nc.out, [Event.call .watermarkNative []])

/-- `vipsDrawWatermark`: decodes the watermark buffer with `vipsRead`, then
performs the native `vips_watermark_image` call.  Neither the borrowed `image`
handle nor the freshly decoded watermark handle is ever unrefed. -/
def vipsDrawWatermark (image : Nat) (wmBuf : List Nat)
    (supported : ImageType → Bool) (isSVG magickBuffer : List Nat → Bool)
    (readNc wmNc : NativeCall) : Except String Nat × List Event :=
  let (res, tr) := vipsRead supported isSVG magickBuffer wmBuf readNc
  match res.2.2 with
  | some e => (Except.error e, tr)
  | none =>
    if wmNc.status ≠ 0 then
      let (msg, ev) := catchVipsError wmNc.errBuf
      (Except.error msg, tr ++ [Event.call .watermarkImageNative []] ++ ev)
    else
      (Except.ok wmNc.out, tr ++ [Event.call .watermarkImageNative []])

/-- `vipsExtract`: rejects overly large requests before calling; clamps
negative offsets with `max`; the four arguments then go through the `C.int`
conversion of the native call; releases the input handle on every path
through the deferred unref (registered before the size check). -/
def vipsExtract (image : Nat) (left top width height : Int) (maxSize : Int)
    (nc : NativeCall) : Except String Nat × List Event :=
  if width > maxSize ∨ height > maxSize then
    (Except.error "Maximum image size exceeded", [Event.unref image])
  else
    let top := Bimg.max top
    let left := Bimg.max left
    if nc.status ≠ 0 then
      let (msg, ev) := catchVipsError nc.errBuf
      (Except.error msg,
        [Event.call .extractAreaBridge [cInt left, cInt top, cInt width, cInt height]] ++ ev ++
          [Event.unref image])
    else
      (Except.ok nc.out,
        [Event.call .extractAreaBridge [cInt left, cInt top, cInt width, cInt height],
          Event.unref image])

/-- `vipsSmartCrop`: rejects overly large requests before calling; the two
arguments go through the `C.int` conversion of the native call; releases the
input handle on every path through the deferred unref. -/
def vipsSmartCrop (image : Nat) (width height : Int) (maxSize : Int)
    (nc : NativeCall) : Except String Nat × List Event :=
  if width > maxSize ∨ height > maxSize then
    (Except.error "Maximum image size exceeded", [Event.unref image])
  else
    if nc.status ≠ 0 then
      let (msg, ev) := catchVipsError nc.errBuf
      (Except.error msg,
        [Event.call .smartcropBridge [cInt width, cInt height]] ++ ev ++ [Event.unref image])
    else
      (Except.ok nc.out,
        [Event.call .smartcropBridge [cInt width, cInt height], Event.unref image])

/-- Modelled from the spec: the `Extend` constants live outside `vips.go`;
they mirror the libvips `VipsExtend` enumeration, whose maximum meaningful
value is `VIPS_EXTEND_BACKGROUND = 5` (the comment and the `extend > 5` clamp
in `vipsEmbed` pin this down). -/
def ExtendBackground : Int := 5

/-- `vipsEmbed`: clamps out-of-range extend values to `ExtendBackground`, then
rejects `ExtendBackground` without a background.  That early return happens
before the deferred unref of `input` is registered, so on that path no unref
occurs; on all later paths the deferred unref runs. -/
def vipsEmbed (input : Nat) (left top width height : Int) (extend : Int)
    (backgroundPresent : Bool) (nc : NativeCall) : Except String Nat × List Event :=
  let extend := if extend > 5 then ExtendBackground else extend
  if extend = ExtendBackground ∧ backgroundPresent = false then
    (Except.error "cannot use ExtendBackground without specifying a background", [])
  else
    if nc.status ≠ 0 then
      let (msg, ev) := catchVipsError nc.errBuf
      (Except.error msg,
        [Event.call .embedBridge [left, top, width, height, extend]] ++ ev ++ [Event.unref input])
    else
      (Except.ok nc.out,
        [Event.call .embedBridge [left, top, width, height, extend], Event.unref input])

/-- `vipsShrink`: picks the vertical, horizontal or two-dimensional shrink
bridge depending on the input extents; releases the input handle on every
path through the deferred unref.  `xsize` and `ysize` are the native image
extents read from the handle. -/
def vipsShrink (input : Nat) (xsize ysize : Nat) (shrink : Int) (nc : NativeCall) :
    Except String Nat × List Event :=
  if xsize = 1 then
    if nc.status ≠ 0 then
      let (msg, ev) := catchVipsError nc.errBuf
      (Except.error msg, [Event.call .shrinkvBridge [shrink]] ++ ev ++ [Event.unref input])
    else
      (Except.ok nc.out, [Event.call .shrinkvBridge [shrink], Event.unref input])
  else if ysize = 1 then
    if nc.status ≠ 0 then
      let (msg, ev) := catchVipsError nc.errBuf
      (Except.error msg, [Event.call .shrinkhBridge [shrink]] ++ ev ++ [Event.unref input])
    else
      (Except.ok nc.out, [Event.call .shrinkhBridge [shrink], Event.unref input])
  else
    if nc.status ≠ 0 then
      let (msg, ev) := catchVipsError nc.errBuf
      (Except.error msg, [Event.call .shrinkBridge [shrink, shrink]] ++ ev ++ [Event.unref input])
    else
      (Except.ok nc.out, [Event.call .shrinkBridge [shrink, shrink], Event.unref input])

/-- Modelled from the spec: `InterpretationSRGB` is a constant of the
`Interpretation` enumeration defined outside `vips.go`; only its use as the
default in `vipsColorspace` matters here. -/
def InterpretationSRGB : Int := 22

/-- `vipsColorspaceOptions` from `vips.go` (ICC paths are the Go strings, with
`""` meaning unset). -/
structure VipsColorspaceOptions where
  NoProfile : Bool
  InputICC : String
  OutputICC : String
  Interpretation : Int
deriving DecidableEq, Repr

/-- Oracle for the native calls `vipsColorspace` can make: the
`vips_colourspace_issupported_bridge` answer, the `has_profile_embed` answer,
and the outcome of the colourspace and ICC transform calls. -/
structure ColorspaceNative where
  colourspaceSupported : Bool
  hasProfile : Bool
  colourspaceCall : NativeCall
  iccCall : NativeCall
deriving DecidableEq, Repr

/-- `vipsColorspace`: optionally removes the profile, queries colourspace
support, converts the colourspace when supported, then applies at most one of
the two ICC transform branches.  On each successful conversion the previous
handle is unrefed and replaced; on a failed native call the error-buffer text
is returned at once (with no unref of the current handle, as in the source). -/
def vipsColorspace (image : Nat) (o : VipsColorspaceOptions) (nat : ColorspaceNative) :
    Except String Nat × List Event :=
  let tr0 : List Event := if o.NoProfile then [Event.call .removeProfileNative []] else []
  let _interp : Int := if o.Interpretation = 0 then InterpretationSRGB else o.Interpretation
  let tr1 : List Event := tr0 ++ [Event.call .colourspaceIssupportedBridge []]
  let rest : Nat → List Event → Except String Nat × List Event := fun image tr =>
    if o.OutputICC ≠ "" ∧ o.InputICC ≠ "" then
      if nat.iccCall.status ≠ 0 then
        let (msg, ev) := catchVipsError nat.iccCall.errBuf
        (Except.error msg, tr ++ [Event.call .iccTransformWithDefaultBridge []] ++ ev)
      else
        (Except.ok nat.iccCall.out,
          tr ++ [Event.call .iccTransformWithDefaultBridge [], Event.unref image])
    else if o.OutputICC ≠ "" then
      let tr := tr ++ [Event.call .hasProfileEmbedNative []]
      if nat.hasProfile then
        if nat.iccCall.status ≠ 0 then
          let (msg, ev) := catchVipsError nat.iccCall.errBuf
          (Except.error msg, tr ++ [Event.call .iccTransformBridge []] ++ ev)
        else
          (Except.ok nat.iccCall.out, tr ++ [Event.call .iccTransformBridge [], Event.unref image])
      else
        (Except.ok image, tr)
    else
      (Except.ok image, tr)
  if nat.colourspaceSupported then
    if nat.colourspaceCall.status ≠ 0 then
      let (msg, ev) := catchVipsError nat.colourspaceCall.errBuf
      (Except.error msg, tr1 ++ [Event.call .colourspaceBridge []] ++ ev)
    else
      rest nat.colourspaceCall.out (tr1 ++ [Event.call .colourspaceBridge [], Event.unref image])
  else
    rest image tr1

/-- `vipsSaveOptions` from `vips.go`.  The Go field `Type` is spelled `type`
here because `Type` is reserved in Lean. -/
structure VipsSaveOptions where
  Speed : Int
  Quality : Int
  Compression : Int
  type : ImageType
  Interlace : Bool
  NoProfile : Bool
  StripMetadata : Bool
  Lossless : Bool
  InputICC : String
  OutputICC : String
  Interpretation : Int
  Palette : Bool
  Effort : Int
  StripEXIFOrientation : Bool
  KeepCopyrightMetadata : Bool
deriving DecidableEq, Repr

/-- Oracle for `vipsSave`: the result of `keepCopyrightMetadata` (whose
EXIF/XMP/IPTC machinery delegates to third-party libraries and is abstracted
to its boolean outcome), and the single native save call, whose `out` is the
native buffer pointer and whose copied contents are `outBytes`. -/
structure SaveNative where
  kcmFound : Bool
  saveCall : NativeCall
  outBytes : List Nat
deriving DecidableEq, Repr

/-- The native save entry point chosen by the `switch o.Type` in `vipsSave`;
every type not named in the switch falls to the JPEG default branch. -/
def saveBridgeName : ImageType → CallName
  | .WEBP => .webpsaveBridge
  | .PNG => .pngsaveBridge
  | .TIFF => .tiffsaveBridge
  | .HEIF => .heifsaveBridge
  | .AVIF => .avifsaveBridge
  | .GIF => .gifsaveBridge
  | .JP2K => .jp2ksaveBridge
  | .JXL => .jxlsaveBridge
  | _ => .jpegsaveBridge

/-- `vipsSave`: optional EXIF-orientation removal and copyright-preserving
strip, the supported-save-type check (`o.Type != 0` is `o.type ≠ UNKNOWN`;
`supportedSave` stands for `IsTypeSupportedSave`, defined outside `vips.go`
over a native query, and `typeName` for the `ImageTypes` name map), then
exactly one native save call.  On success the bytes are copied out of the
native buffer (`GoBytes`), the buffer is freed, the error buffer cleared; the
deferred unref of `image` runs last on every path. -/
def vipsSave (image : Nat) (o : VipsSaveOptions) (supportedSave : ImageType → Bool)
    (typeName : ImageType → String) (nat : SaveNative) :
    Except String (List Nat) × List Event :=
  let tr0 : List Event :=
    if o.StripEXIFOrientation then [Event.call .imageRemoveNative []] else []
  let tr1 : List Event := tr0 ++
    (if o.StripMetadata = true ∧ o.KeepCopyrightMetadata = true then
      [Event.call .keepCopyrightNative []] else [])
  if o.type ≠ .UNKNOWN ∧ supportedSave o.type = false then
    (Except.error ("VIPS cannot save to " ++ typeName o.type), tr1 ++ [Event.unref image])
  else
    let name := saveBridgeName o.type
    if nat.saveCall.status ≠ 0 then
      let (msg, ev) := catchVipsError nat.saveCall.errBuf
      (Except.error msg, tr1 ++ [Event.call name []] ++ ev ++ [Event.unref image])
    else
      (Except.ok nat.outBytes,
        tr1 ++ [Event.call name [], Event.copyOut nat.saveCall.out,
          Event.freeMem nat.saveCall.out, Event.errClear, Event.unref image])

/-- `getImageBuffer`: one JPEG save bridge call; on success the bytes are
copied (`GoBytes` in the return expression), then the deferred
`vips_error_clear` and `g_free` run (in that LIFO order).  The image handle is
not unrefed here (the caller owns it). -/
def getImageBuffer (image : Nat) (nc : NativeCall) (outBytes : List Nat) :
    Except String (List Nat) × List Event :=
  if nc.status ≠ 0 then
    let (msg, ev) := catchVipsError nc.errBuf
    (Except.error msg, [Event.call .jpegsaveBridge []] ++ ev)
  else
    (Except.ok outBytes,
      [Event.call .jpegsaveBridge [], Event.copyOut nc.out, Event.errClear, Event.freeMem nc.out])

/-- `vipsGetMetadataRaw`: one `vips_image_get_blob` call; on success the blob
bytes are copied out (`GoBytes`).  The blob memory belongs to the image and is
neither freed nor unrefed here. -/
def vipsGetMetadataRaw (image : Nat) (nc : NativeCall) (blobBytes : List Nat) :
    Except String (List Nat) × List Event :=
  if nc.status ≠ 0 then
    let (msg, ev) := catchVipsError nc.errBuf
    (Except.error msg, [Event.call .imageGetBlobNative []] ++ ev)
  else
    (Except.ok blobBytes, [Event.call .imageGetBlobNative [], Event.copyOut nc.out])

/-- Oracle for `RGBAPixels`: the decode call, the native image extents, the
`vips_get_rgba_pixels` call (whose `out` is the native pixel buffer pointer),
and the native memory contents at each address. -/
structure RgbaNative where
  readCall : NativeCall
  xsize : Nat
  ysize : Nat
  pixCall : NativeCall
  mem : Nat → Nat

/-- `RGBAPixels` mirrors the Go quadruple `([]uint8, int, int, error)`; the
outer `Option` is `none` when the Go code panics (the slice expression caps
the native array at `1 << 28` bytes). -/
abbrev RgbaResult := Option (List Nat × Nat × Nat × Option String)

/-- `RGBAPixels`: decodes the buffer, reads the extents, obtains the native
RGBA buffer, and returns a slice of length `w * h * 4` that ALIASES the native
buffer (no copy is made).  The deferred `C.free(unsafe.Pointer(out))`
evaluates its argument at `defer` time, while `out` is still nil, so the
deferred free receives the nil pointer (pointer `0`) and the pixel buffer is
never freed.  The deferred unref of the image handle and the deferred
`vips_thread_shutdown` run last. -/
def RGBAPixels (supported : ImageType → Bool) (isSVG magickBuffer : List Nat → Bool)
    (buf : List Nat) (nat : RgbaNative) : RgbaResult × List Event :=
  let (res, tr) := vipsReadAll supported isSVG magickBuffer buf nat.readCall
  match res.1, res.2.2 with
  | _, some e => (some ([], 0, 0, some e), tr ++ [Event.threadExit])
  | some image, none =>
    let w := nat.xsize
    let h := nat.ysize
    let length := w * h * 4
    if nat.pixCall.status ≠ 0 then
      let (msg, ev) := catchVipsError nat.pixCall.errBuf
      (some ([], 0, 0, some msg),
        tr ++ [Event.call .getRgbaPixelsNative []] ++ ev ++
          [Event.freeMem 0, Event.unref image, Event.threadExit])
    else if 2 ^ 28 < length then
      (none,
        tr ++ [Event.call .getRgbaPixelsNative [], Event.freeMem 0, Event.unref image,
          Event.threadExit])
    else
      let pixels := (List.range length).map (fun i => nat.mem (nat.pixCall.out + i))
      (some (pixels, w, h, none),
        tr ++ [Event.call .getRgbaPixelsNative [], Event.aliasOut nat.pixCall.out,
          Event.freeMem 0, Event.unref image, Event.threadExit])
  | none, none =>
    -- unreachable: `vipsReadCommon` returns a handle exactly when it returns no error
    (none, tr)

/-- Cache limits set by `Initialize` (constants at the top of `vips.go`). -/
def maxCacheMem : Int := 100 * 1024 * 1024

/-- Maximum number of cached operations set by `Initialize`. -/
def maxCacheSize : Int := 500

/-- The Go `Initialize`, embedded as `InitializeVips`: under the mutex it
starts libvips, configures the cache, optionally caps concurrency and enables
tracing depending on the environment, and sets the process-wide `initialized`
flag to true.  `vipsInitOk = false` models a failing `vips_init`, on which
the Go code panics before touching the flag (result `none`). -/
def InitializeVips (vipsInitOk : Bool) (concurrencyEnvSet traceEnvSet : Bool)
    (initialized : Bool) : Option (Bool × List Event) :=
  if vipsInitOk = false then none
  else
    some (true,
      [Event.call .vipsInit [], Event.call .cacheSetMaxMem [maxCacheMem],
        Event.call .cacheSetMax [maxCacheSize]]
      ++ (if concurrencyEnvSet then [] else [Event.call .concurrencySet [1]])
      ++ (if traceEnvSet then [Event.call .enableCacheTrace []] else []))

/-- The Go `Shutdown` (named `ShutdownVips` here): under the mutex, it calls
`vips_shutdown` and clears the flag only when the flag is set; otherwise it is
a no-op. -/
def ShutdownVips (initialized : Bool) : Bool × List Event :=
  if initialized then (false, [Event.call .vipsShutdownNative []])
  else (initialized, [])

/-! Concrete instantiations used to evaluate the definitions on closed inputs. -/

/-- A libvips build in which every format bridge is present. -/
def allSupported : ImageType → Bool := fun _ => true

/-- A libvips build with every format bridge except SVG and MAGICK. -/
def supportedNoSvgMagick : ImageType → Bool := fun t =>
  match t with
  | .SVG => false
  | .MAGICK => false
  | _ => true

/-- A trivially false auxiliary sniffer (no buffer looks like SVG, no buffer
finds a Magick loader). -/
def noAux : List Nat → Bool := fun _ => false

/-- A failing native call with a fixed error-buffer text. -/
def natFail : NativeCall := ⟨1, "vips: boom", 0⟩

/-- Twelve-byte JFIF (JPEG) header. -/
def jpegHeader12 : List Nat := [0xFF, 0xD8, 0xFF, 0xE0, 0x00, 0x10, 0x4A, 0x46, 0x49, 0x46, 0x00, 0x01]

/-- Twelve-byte GIF89a header. -/
def gifHeader12 : List Nat := [0x47, 0x49, 0x46, 0x38, 0x39, 0x61, 0, 0, 0, 0, 0, 0]

/-- Twelve-byte PNG header. -/
def pngHeader12 : List Nat := [0x89, 0x50, 0x4E, 0x47, 0x0D, 0x0A, 0x1A, 0x0A, 0, 0, 0, 0x0D]

/-- Twelve-byte little-endian TIFF header. -/
def tiffHeader12 : List Nat := [0x49, 0x49, 0x2A, 0x00, 0, 0, 0, 0, 0, 0, 0, 0]

/-- Twelve-byte PDF header. -/
def pdfHeader12 : List Nat := [0x25, 0x50, 0x44, 0x46, 0x2D, 0x31, 0x2E, 0x34, 0, 0, 0, 0]

/-- Twelve-byte RIFF/WEBP header. -/
def webpHeader12 : List Nat := [0x52, 0x49, 0x46, 0x46, 0, 0, 0, 0, 0x57, 0x45, 0x42, 0x50]

/-- Twelve-byte `ftypheic` HEIF header. -/
def heifHeader12 : List Nat := [0x00, 0x00, 0x00, 0x18, 0x66, 0x74, 0x79, 0x70, 0x68, 0x65, 0x69, 0x63]

/-- Twelve-byte `ftypavif` AVIF header. -/
def avifHeader12 : List Nat := [0x00, 0x00, 0x00, 0x18, 0x66, 0x74, 0x79, 0x70, 0x61, 0x76, 0x69, 0x66]

/-- Twelve-byte JP2K signature-box header. -/
def jp2kHeader12 : List Nat := [0x00, 0x00, 0x00, 0x0C, 0x6A, 0x50, 0x20, 0x20, 0x0D, 0x0A, 0x87, 0x0A]

/-- Twelve-byte bare-codestream JXL header. -/
def jxlHeader12 : List Nat := [0xFF, 0x0A, 0, 0, 0, 0, 0, 0, 0, 0, 0, 0]

/-- A buffer carrying the PNG magic at bytes 0 to 3 and the `WEBP` tag at
bytes 8 to 11 at the same time. -/
def pngWebpClash12 : List Nat := [0x89, 0x50, 0x4E, 0x47, 0, 0, 0, 0, 0x57, 0x45, 0x42, 0x50]

/-- A successful decode of a 2 by 2 image whose native pixel buffer sits at
pointer 100 and whose native memory is all zero. -/
def rgbaOkNat : RgbaNative := ⟨⟨0, "", 5⟩, 2, 2, ⟨0, "", 100⟩, fun _ => 0⟩

/-- Is the event one of the three transformation calls `vipsColorspace` can
perform? -/
def isColorspaceTransformEvent : Event → Bool
  | Event.call CallName.colourspaceBridge _ => true
  | Event.call CallName.iccTransformWithDefaultBridge _ => true
  | Event.call CallName.iccTransformBridge _ => true
  | _ => false

/-- Is the event the colourspace bridge call? -/
def isColourspaceBridgeEvent : Event → Bool
  | Event.call CallName.colourspaceBridge _ => true
  | _ => false

/-- Is the event the default-profile ICC transform call? -/
def isIccDefaultEvent : Event → Bool
  | Event.call CallName.iccTransformWithDefaultBridge _ => true
  | _ => false

/-- Is the event the embedded-profile ICC transform call? -/
def isIccTransformEvent : Event → Bool
  | Event.call CallName.iccTransformBridge _ => true
  | _ => false

/-- Is the event the rotate bridge call? -/
def isRotateEvent : Event → Bool
  | Event.call CallName.rotateBridge _ => true
  | _ => false

/-- Is the event one of the native save calls of `vipsSave`? -/
def isSaveBridgeEvent : Event → Bool
  | Event.call CallName.webpsaveBridge _ => true
  | Event.call CallName.pngsaveBridge _ => true
  | Event.call CallName.tiffsaveBridge _ => true
  | Event.call CallName.heifsaveBridge _ => true
  | Event.call CallName.avifsaveBridge _ => true
  | Event.call CallName.gifsaveBridge _ => true
  | Event.call CallName.jp2ksaveBridge _ => true
  | Event.call CallName.jxlsaveBridge _ => true
  | Event.call CallName.jpegsaveBridge _ => true
  | _ => false

/-- Is the event a `GoBytes` copy out of native memory? -/
def isCopyOutEvent : Event → Bool
  | Event.copyOut _ => true
  | _ => false

/-! ## Claims -/

/-- C1: whenever magic-byte sniffing cannot recognize the buffer (and in
particular for every buffer of fewer than 12 bytes), `vipsReadCommon` returns
the error "Unsupported image format" together with image type `UNKNOWN` and
performs no `vips_init_image` call (its trace is empty). -/
theorem C1_unknown_format_rejected_before_decode :
    ∀ (s : ImageType → Bool) (sv mg : List Nat → Bool) (buf : List Nat) (frames : Int)
      (nc : NativeCall),
      (buf.length < 12 → vipsImageType s sv mg buf = .UNKNOWN) ∧
      (vipsImageType s sv mg buf = .UNKNOWN →
        vipsReadCommon s sv mg buf frames nc =
          ((none, .UNKNOWN, some "Unsupported image format"), []) ∧
        ∀ args, Event.call .vipsInitImage args ∉ (vipsReadCommon s sv mg buf frames nc).2) := by
  intro s sv mg buf frames nc
  constructor
  · intro h
    unfold vipsImageType
    rw [if_pos h]
  · intro h
    have h1 : vipsReadCommon s sv mg buf frames nc =
        ((none, .UNKNOWN, some "Unsupported image format"), []) := by
      unfold vipsReadCommon
      simp [h]
    refine ⟨h1, ?_⟩
    intro args
    rw [h1]
    simp

/-- Witness for C1 at the empty buffer. -/
theorem C1_unknown_format_rejected_before_decode_witness :
    vipsImageType allSupported noAux noAux [] = .UNKNOWN ∧
    vipsReadCommon allSupported noAux noAux [] 1 ⟨0, "", 3⟩ =
      ((none, .UNKNOWN, some "Unsupported image format"), []) := by
  have h := C1_unknown_format_rejected_before_decode allSupported noAux noAux [] 1 ⟨0, "", 3⟩
  have h0 : vipsImageType allSupported noAux noAux [] = .UNKNOWN := h.1 (by decide)
  exact ⟨h0, (h.2 h0).1⟩

/-- C4: the process-wide `initialized` flag transitions exactly as claimed:
after a (successful) `Initialize` it is true regardless of the previous
state; after `Shutdown` it is false; `Shutdown` on an already-false flag makes
no native call and leaves the state unchanged; and repeating either operation
yields the very same state (and, for the repeated one, no further native
shutdown). -/
theorem C4_init_flag_idempotent :
    ∀ (c t s : Bool),
      ((InitializeVips true c t s).map Prod.fst = some true) ∧
      ((ShutdownVips s).1 = false) ∧
      (ShutdownVips false = (false, [])) ∧
      (ShutdownVips (ShutdownVips s).1 = (false, [])) ∧
      (((InitializeVips true c t s).bind fun r => InitializeVips true c t r.1) =
        InitializeVips true c t s) := by
  intro c t s
  cases c <;> cases t <;> cases s <;>
    simp [InitializeVips, ShutdownVips]

/-- C8, counterexample: the native extract-area call does NOT always receive
non-negative offsets, and non-negative offsets are not always passed through
unchanged: the clamped offset still goes through the `C.int` (32-bit, wrapping)
conversion at the call boundary, so the non-negative left offset `2 ^ 31`
reaches the native call as `-2147483648`. -/
theorem C8_offset_wrap_counterexample :
    (vipsExtract 3 (2 ^ 31) 0 5 5 10 ⟨0, "", 4⟩).2.head? =
      some (Event.call .extractAreaBridge [-2147483648, 0, 5, 5]) ∧
    (0 : Int) ≤ 2 ^ 31 ∧ (-2147483648 : Int) < 0 := by
  exact ⟨by decide, by decide, by decide⟩

/-- C8, amended: when the size guard passes, the first event of `vipsExtract`
is the native extract-area call with arguments `C.int(max left)`,
`C.int(max top)`, `C.int(width)`, `C.int(height)`.  For offsets of magnitude
at most `2 ^ 53` (the range on which the float64 round trip inside `max` is
exact): a negative offset is clamped to zero (and arrives as zero), the clamp
leaves non-negative offsets unchanged, and a non-negative offset below
`2 ^ 31` survives the `C.int` conversion unchanged, hence arrives
non-negative; offsets of `2 ^ 31` or more wrap and can arrive negative. -/
theorem C8_extract_clamps_offsets_amended :
    ∀ (image : Nat) (l t w h ms : Int) (nc : NativeCall), w ≤ ms → h ≤ ms →
      -(2 ^ 53) ≤ l → l ≤ 2 ^ 53 → -(2 ^ 53) ≤ t → t ≤ 2 ^ 53 →
      (vipsExtract image l t w h ms nc).2.head? =
        some (Event.call .extractAreaBridge
          [cInt (Bimg.max l), cInt (Bimg.max t), cInt w, cInt h]) ∧
      (0 ≤ Bimg.max l ∧ 0 ≤ Bimg.max t) ∧
      (l < 0 → Bimg.max l = 0 ∧ cInt (Bimg.max l) = 0) ∧
      (0 ≤ l → Bimg.max l = l) ∧
      (0 ≤ l → l < 2 ^ 31 → cInt (Bimg.max l) = l) ∧
      (t < 0 → Bimg.max t = 0 ∧ cInt (Bimg.max t) = 0) ∧
      (0 ≤ t → Bimg.max t = t) ∧
      (0 ≤ t → t < 2 ^ 31 → cInt (Bimg.max t) = t) := by
  intro image l t w h ms nc hw hh hl1 hl2 ht1 ht2
  have e31 : (2 : Int) ^ 31 = 2147483648 := by norm_num
  have e32 : (2 : Int) ^ 32 = 4294967296 := by norm_num
  have hsz : ¬(w > ms ∨ h > ms) := by omega
  refine ⟨?_, ⟨?_, ?_⟩, ?_, ?_, ?_, ?_, ?_, ?_⟩
  · unfold vipsExtract
    rw [if_neg hsz]
    by_cases hs : nc.status ≠ 0 <;> simp [hs, catchVipsError]
  · unfold Bimg.max; split <;> omega
  · unfold Bimg.max; split <;> omega
  · intro hneg
    have hm : Bimg.max l = 0 := by unfold Bimg.max; rw [if_pos hneg]
    exact ⟨hm, by rw [hm]; decide⟩
  · intro hpos; unfold Bimg.max; rw [if_neg (by omega)]
  · intro hpos hlt
    have hm : Bimg.max l = l := by unfold Bimg.max; rw [if_neg (by omega)]
    rw [hm]
    unfold cInt
    rw [e31] at hlt
    rw [e31, e32, Int.emod_eq_of_lt (by omega) (by omega)]
    omega
  · intro hneg
    have hm : Bimg.max t = 0 := by unfold Bimg.max; rw [if_pos hneg]
    exact ⟨hm, by rw [hm]; decide⟩
  · intro hpos; unfold Bimg.max; rw [if_neg (by omega)]
  · intro hpos hlt
    have hm : Bimg.max t = t := by unfold Bimg.max; rw [if_neg (by omega)]
    rw [hm]
    unfold cInt
    rw [e31] at hlt
    rw [e31, e32, Int.emod_eq_of_lt (by omega) (by omega)]
    omega

/-- Witness for C8 with a negative left offset and a small positive top
offset. -/
theorem C8_extract_clamps_offsets_amended_witness :
    (vipsExtract 3 (-4) 2 5 5 10 ⟨0, "", 4⟩).2.head? =
      some (Event.call .extractAreaBridge
        [cInt (Bimg.max (-4)), cInt (Bimg.max 2), cInt 5, cInt 5]) ∧
    Bimg.max (-4) = 0 ∧ cInt (Bimg.max 2) = 2 := by
  have h := C8_extract_clamps_offsets_amended 3 (-4) 2 5 5 10 ⟨0, "", 4⟩ (by decide) (by decide)
    (by decide) (by decide) (by decide) (by decide)
  exact ⟨h.1, (h.2.2.1 (by decide)).1, h.2.2.2.2.2.2.2 (by decide) (by decide)⟩

/-- C9: an extract or smart-crop request with a dimension above `maxSize`
returns the fixed error and its trace holds no native crop call (only the
deferred unref); a request within the limit reaches the native call. -/
theorem C9_max_size_guard :
    ∀ (image : Nat) (l t w h ms : Int) (nc : NativeCall),
      (ms < w ∨ ms < h →
        vipsExtract image l t w h ms nc =
          (Except.error "Maximum image size exceeded", [Event.unref image]) ∧
        vipsSmartCrop image w h ms nc =
          (Except.error "Maximum image size exceeded", [Event.unref image])) ∧
      (w ≤ ms → h ≤ ms →
        (∃ args, Event.call .extractAreaBridge args ∈ (vipsExtract image l t w h ms nc).2) ∧
        (∃ args, Event.call .smartcropBridge args ∈ (vipsSmartCrop image w h ms nc).2)) := by
  intro image l t w h ms nc
  constructor
  · intro hbig
    constructor
    · unfold vipsExtract
      rw [if_pos hbig]
    · unfold vipsSmartCrop
      rw [if_pos hbig]
  · intro hw hh
    have hsz : ¬(w > ms ∨ h > ms) := by omega
    constructor
    · refine ⟨[cInt (Bimg.max l), cInt (Bimg.max t), cInt w, cInt h], ?_⟩
      unfold vipsExtract
      rw [if_neg hsz]
      by_cases hs : nc.status ≠ 0 <;> simp [hs, catchVipsError]
    · refine ⟨[cInt w, cInt h], ?_⟩
      unfold vipsSmartCrop
      rw [if_neg hsz]
      by_cases hs : nc.status ≠ 0 <;> simp [hs, catchVipsError]

/-- Witness for C9 on both sides of the limit. -/
theorem C9_max_size_guard_witness :
    vipsExtract 3 0 0 20 5 10 ⟨0, "", 4⟩ =
      (Except.error "Maximum image size exceeded", [Event.unref 3]) ∧
    ∃ args, Event.call .smartcropBridge args ∈ (vipsSmartCrop 3 5 5 10 ⟨0, "", 4⟩).2 := by
  refine ⟨((C9_max_size_guard 3 0 0 20 5 10 ⟨0, "", 4⟩).1 (by decide)).1, ?_⟩
  exact ((C9_max_size_guard 3 0 0 5 5 10 ⟨0, "", 4⟩).2 (by decide) (by decide)).2

/-- C2 (evaluation at the failing input): `vipsEmbed` invoked with
`ExtendBackground` and no background returns its error with an EMPTY trace —
the borrowed input handle (7) is never unrefed, because the early return runs
before the deferred unref is registered.  Moreover `vipsWatermark` and
`vipsDrawWatermark` never unref the borrowed handle on any path, here shown on
successful runs. -/
theorem C2_handle_leak_on_embed_and_watermark :
    (vipsEmbed 7 0 0 10 10 ExtendBackground false ⟨0, "", 8⟩ =
      (Except.error "cannot use ExtendBackground without specifying a background", [])) ∧
    ((vipsWatermark 7 ⟨0, "", 9⟩).2.count (Event.unref 7) = 0 ∧
      (vipsWatermark 7 ⟨0, "", 9⟩).1 = Except.ok 9) ∧
    ((vipsDrawWatermark 7 jpegHeader12 allSupported noAux noAux
        ⟨0, "", 11⟩ ⟨0, "", 12⟩).2.count (Event.unref 7) = 0 ∧
      (vipsDrawWatermark 7 jpegHeader12 allSupported noAux noAux
        ⟨0, "", 11⟩ ⟨0, "", 12⟩).2.count (Event.unref 11) = 0 ∧
      (vipsDrawWatermark 7 jpegHeader12 allSupported noAux noAux
        ⟨0, "", 11⟩ ⟨0, "", 12⟩).1 = Except.ok 12) := by
  exact ⟨rfl, ⟨rfl, rfl⟩, rfl, rfl, rfl⟩

/-- C3: whenever the native call of an operation reports a non-zero status,
the operation returns an error whose message is exactly the text sitting in
the native error buffer at that call (the `catchVipsError` read), and no
success value: shown for rotate, flip, zoom, extract, smart-crop, embed,
shrink and save (the guards of extract, smart-crop, embed and save restrict
to the paths that reach the native call). -/
theorem C3_native_error_text_propagated :
    ∀ (nc : NativeCall) (image : Nat) (bg bp : Bool) (d z l t w h ms ext sh : Int)
      (xe ye : Nat) (o : VipsSaveOptions) (ss : ImageType → Bool)
      (tn : ImageType → String) (kcm : Bool) (bytes : List Nat),
      nc.status ≠ 0 →
      (vipsRotate image bg nc).1 = Except.error nc.errBuf ∧
      (vipsFlip image d nc).1 = Except.error nc.errBuf ∧
      (vipsZoom image z nc).1 = Except.error nc.errBuf ∧
      (w ≤ ms → h ≤ ms → (vipsExtract image l t w h ms nc).1 = Except.error nc.errBuf) ∧
      (w ≤ ms → h ≤ ms → (vipsSmartCrop image w h ms nc).1 = Except.error nc.errBuf) ∧
      (bp = true → (vipsEmbed image l t w h ext bp nc).1 = Except.error nc.errBuf) ∧
      (vipsShrink image xe ye sh nc).1 = Except.error nc.errBuf ∧
      ((o.type = .UNKNOWN ∨ ss o.type = true) →
        (vipsSave image o ss tn ⟨kcm, nc, bytes⟩).1 = Except.error nc.errBuf) := by
  intro nc image bg bp d z l t w h ms ext sh xe ye o ss tn kcm bytes hst
  refine ⟨?_, ?_, ?_, ?_, ?_, ?_, ?_, ?_⟩
  · simp [vipsRotate, catchVipsError, hst]
  · simp [vipsFlip, catchVipsError, hst]
  · simp [vipsZoom, catchVipsError, hst]
  · intro hw hh
    unfold vipsExtract
    rw [if_neg (by omega)]
    simp [catchVipsError, hst]
  · intro hw hh
    unfold vipsSmartCrop
    rw [if_neg (by omega)]
    simp [catchVipsError, hst]
  · intro hbp
    unfold vipsEmbed
    rw [if_neg (by simp [hbp])]
    simp [catchVipsError, hst]
  · unfold vipsShrink
    by_cases hx : xe = 1 <;> by_cases hy : ye = 1 <;>
      simp [hx, hy, catchVipsError, hst]
  · intro hty
    unfold vipsSave
    rw [if_neg (by rcases hty with h | h <;> simp [h])]
    simp [catchVipsError, hst]

/-- Witness for C3 at a concrete failing call. -/
theorem C3_native_error_text_propagated_witness :
    (vipsRotate 3 false natFail).1 = Except.error "vips: boom" ∧
    (vipsExtract 3 1 1 5 5 10 natFail).1 = Except.error "vips: boom" ∧
    (vipsSave 3 ⟨0, 80, 6, .UNKNOWN, false, false, false, false, "", "", 0, false, 0,
        false, false⟩ allSupported (fun _ => "") ⟨false, natFail, []⟩).1 =
      Except.error "vips: boom" := by
  have h := C3_native_error_text_propagated natFail 3 false false 0 0 1 1 5 5 10 0 0 2 2
    ⟨0, 80, 6, .UNKNOWN, false, false, false, false, "", "", 0, false, 0, false, false⟩
    allSupported (fun _ => "") false [] (by decide)
  exact ⟨h.1, h.2.2.2.1 (by decide) (by decide), h.2.2.2.2.2.2.2 (Or.inl rfl)⟩

/-- C10: `RGBAPixels` returns, on success, a pixel slice of length exactly
`w * h * 4` for the returned dimensions `w` and `h`, and on failure the empty
slice with both dimensions zero. -/
theorem C10_rgba_length_spec :
    ∀ (s : ImageType → Bool) (sv mg : List Nat → Bool) (buf : List Nat) (nat : RgbaNative),
      (∀ p w h, (RGBAPixels s sv mg buf nat).1 = some (p, w, h, none) →
        p.length = w * h * 4) ∧
      (∀ p w h e, (RGBAPixels s sv mg buf nat).1 = some (p, w, h, some e) →
        p = [] ∧ w = 0 ∧ h = 0) := by
  intro s sv mg buf nat
  rcases hra : vipsReadAll s sv mg buf nat.readCall with ⟨⟨i?, ty, e?⟩, tr⟩
  constructor
  · intro p w h hEq
    unfold RGBAPixels at hEq
    rw [hra] at hEq
    rcases i? with _ | img <;> rcases e? with _ | err
    · simp at hEq
    · simp at hEq
    · dsimp only at hEq
      by_cases h1 : nat.pixCall.status ≠ 0
      · rw [if_pos h1] at hEq
        simp at hEq
      · rw [if_neg h1] at hEq
        by_cases h2 : 2 ^ 28 < nat.xsize * nat.ysize * 4
        · rw [if_pos h2] at hEq
          simp at hEq
        · rw [if_neg h2] at hEq
          simp only [Option.some.injEq, Prod.mk.injEq] at hEq
          obtain ⟨hp, hw, hh, -⟩ := hEq
          subst hw hh
          rw [← hp]
          simp
    · simp at hEq
  · intro p w h e hEq
    unfold RGBAPixels at hEq
    rw [hra] at hEq
    rcases i? with _ | img <;> rcases e? with _ | err
    · simp at hEq
    · simp only [Option.some.injEq, Prod.mk.injEq] at hEq
      exact ⟨hEq.1.symm, hEq.2.1.symm, hEq.2.2.1.symm⟩
    · dsimp only at hEq
      by_cases h1 : nat.pixCall.status ≠ 0
      · rw [if_pos h1] at hEq
        simp only [catchVipsError, Option.some.injEq, Prod.mk.injEq] at hEq
        exact ⟨hEq.1.symm, hEq.2.1.symm, hEq.2.2.1.symm⟩
      · rw [if_neg h1] at hEq
        by_cases h2 : 2 ^ 28 < nat.xsize * nat.ysize * 4
        · rw [if_pos h2] at hEq
          simp at hEq
        · rw [if_neg h2] at hEq
          simp at hEq
    · simp only [Option.some.injEq, Prod.mk.injEq] at hEq
      exact ⟨hEq.1.symm, hEq.2.1.symm, hEq.2.2.1.symm⟩

/-- Witness for C10 on a successful run (a 2 by 2 image whose slice has the
16 aliased bytes) and on a failing decode (empty result). -/
theorem C10_rgba_length_spec_witness :
    (List.replicate 16 0).length = 2 * 2 * 4 ∧
    (([] : List Nat) = [] ∧ (0 : Nat) = 0 ∧ (0 : Nat) = 0) := by
  exact ⟨(C10_rgba_length_spec allSupported noAux noAux jpegHeader12
      ⟨⟨0, "", 5⟩, 2, 2, ⟨0, "", 100⟩, fun _ => 0⟩).1 (List.replicate 16 0) 2 2 (by decide),
    (C10_rgba_length_spec allSupported noAux noAux []
      ⟨natFail, 2, 2, ⟨0, "", 100⟩, fun _ => 0⟩).2 [] 0 0 "Unsupported image format"
      (by decide)⟩

/-- C6, counterexample: `vipsColorspace` does not translate every request into
exactly one native transformation call.  With no ICC options and an input
whose colourspace conversion is unsupported it performs ZERO transformation
calls, and with both ICC paths set on a supported input it performs TWO
(the colourspace conversion followed by the ICC transform). -/
theorem C6_not_exactly_one_call_counterexample :
    ((vipsColorspace 7 ⟨false, "", "", 0⟩
        ⟨false, false, ⟨0, "", 8⟩, ⟨0, "", 9⟩⟩).2.countP isColorspaceTransformEvent = 0) ∧
    ((vipsColorspace 7 ⟨false, "in.icc", "out.icc", 0⟩
        ⟨true, false, ⟨0, "", 8⟩, ⟨0, "", 9⟩⟩).2.countP isColorspaceTransformEvent = 2) := by
  decide

set_option maxHeartbeats 1600000 in
/-- C6, amended: each operation invokes each native entry point at most once
per request (so a failed call is never retried); `vipsSave` performs exactly
one native save call whenever its target type passes the supported-save
check, and `vipsRotate` exactly one rotate call; `vipsColorspace` performs
each of its three transformation calls at most once (zero to two in total,
depending on options). -/
theorem C6_at_most_once_no_retry :
    ∀ (image : Nat) (o : VipsColorspaceOptions) (nat : ColorspaceNative)
      (o2 : VipsSaveOptions) (ss : ImageType → Bool) (tn : ImageType → String)
      (snat : SaveNative) (bg : Bool) (nc : NativeCall),
      ((vipsColorspace image o nat).2.countP isColourspaceBridgeEvent ≤ 1 ∧
        (vipsColorspace image o nat).2.countP isIccDefaultEvent ≤ 1 ∧
        (vipsColorspace image o nat).2.countP isIccTransformEvent ≤ 1) ∧
      ((o2.type = .UNKNOWN ∨ ss o2.type = true) →
        (vipsSave image o2 ss tn snat).2.countP isSaveBridgeEvent = 1) ∧
      (vipsRotate image bg nc).2.countP isRotateEvent = 1 := by
  intro image o nat o2 ss tn snat bg nc
  refine ⟨?_, ?_, ?_⟩
  · unfold vipsColorspace
    dsimp only
    split_ifs <;>
      refine ⟨?_, ?_, ?_⟩ <;>
        simp [List.countP_append, List.countP_cons, List.countP_nil,
          isColourspaceBridgeEvent, isIccDefaultEvent, isIccTransformEvent, catchVipsError]
  · intro hty
    have hsb : ∀ ty, isSaveBridgeEvent (Event.call (saveBridgeName ty) []) = true := by
      intro ty; cases ty <;> rfl
    have e1 : ∀ p, isSaveBridgeEvent (Event.copyOut p) = false := fun _ => rfl
    have e2 : ∀ p, isSaveBridgeEvent (Event.freeMem p) = false := fun _ => rfl
    have e3 : ∀ hdl, isSaveBridgeEvent (Event.unref hdl) = false := fun _ => rfl
    have e4 : isSaveBridgeEvent Event.errClear = false := rfl
    have e5 : isSaveBridgeEvent Event.threadExit = false := rfl
    have e6 : ∀ args, isSaveBridgeEvent (Event.call CallName.keepCopyrightNative args) = false :=
      fun _ => rfl
    have e7 : ∀ args, isSaveBridgeEvent (Event.call CallName.imageRemoveNative args) = false :=
      fun _ => rfl
    unfold vipsSave
    rw [if_neg (by rcases hty with h | h <;> simp [h])]
    dsimp only
    split_ifs <;>
      simp [List.countP_append, List.countP_cons, List.countP_nil,
        hsb, e1, e2, e3, e4, e5, e6, e7, catchVipsError]
  · unfold vipsRotate
    dsimp only
    split_ifs <;>
      simp [List.countP_append, List.countP_cons, List.countP_nil, isRotateEvent,
        catchVipsError]

/-- Witness for C6 at a concrete save and rotate request. -/
theorem C6_at_most_once_no_retry_witness :
    (vipsSave 3 ⟨0, 80, 6, .UNKNOWN, false, false, false, false, "", "", 0, false, 0, false,
        false⟩ allSupported (fun _ => "") ⟨false, ⟨0, "", 4⟩, []⟩).2.countP isSaveBridgeEvent = 1 ∧
    (vipsRotate 3 false ⟨0, "", 4⟩).2.countP isRotateEvent = 1 := by
  have h := C6_at_most_once_no_retry 3 ⟨false, "", "", 0⟩
    ⟨false, false, ⟨0, "", 8⟩, ⟨0, "", 9⟩⟩
    ⟨0, 80, 6, .UNKNOWN, false, false, false, false, "", "", 0, false, 0, false, false⟩
    allSupported (fun _ => "") ⟨false, ⟨0, "", 4⟩, []⟩ false ⟨0, "", 4⟩
  exact ⟨h.2.1 (Or.inl rfl), h.2.2⟩

/-- C7, counterexample: on a successful `RGBAPixels` run the returned slice is
produced WITHOUT any copy out of native memory (no `GoBytes`): the trace holds
no copy event, the image handle is released, the pixel buffer at pointer 100
is aliased and never freed, yet a success value is returned. -/
theorem C7_rgba_no_copy_counterexample :
    ((RGBAPixels allSupported noAux noAux jpegHeader12 rgbaOkNat).1 =
      some (List.replicate 16 0, 2, 2, none)) ∧
    ((RGBAPixels allSupported noAux noAux jpegHeader12 rgbaOkNat).2.countP isCopyOutEvent = 0) ∧
    ((RGBAPixels allSupported noAux noAux jpegHeader12 rgbaOkNat).2.count (Event.unref 5) = 1) ∧
    ((RGBAPixels allSupported noAux noAux jpegHeader12 rgbaOkNat).2.count (Event.freeMem 100) = 0) ∧
    (Event.aliasOut 100 ∈ (RGBAPixels allSupported noAux noAux jpegHeader12 rgbaOkNat).2) := by
  decide

/-- No path of `vipsReadCommon` copies bytes out of native memory. -/
lemma vipsReadCommon_no_copy (s : ImageType → Bool) (sv mg : List Nat → Bool)
    (buf : List Nat) (frames : Int) (nc : NativeCall) :
    (vipsReadCommon s sv mg buf frames nc).2.countP isCopyOutEvent = 0 := by
  unfold vipsReadCommon
  dsimp only
  split_ifs <;>
    simp [catchVipsError, isCopyOutEvent, List.countP_append, List.countP_cons, List.countP_nil]

/-- C7, amended: in `vipsSave`, `getImageBuffer` and `vipsGetMetadataRaw` the
result bytes are copied out of native memory strictly before any free of the
native buffer and before the image unref (shown by the exact traces).
`RGBAPixels`, by contrast, never copies: it returns a slice aliasing the
native pixel buffer, whose deferred free receives the nil pointer captured at
`defer` time (so the buffer is never freed), and the image handle is released
after the alias is created. -/
theorem C7_copy_before_release_amended :
    ∀ (image : Nat) (o : VipsSaveOptions) (ss : ImageType → Bool) (tn : ImageType → String)
      (snat : SaveNative) (nc : NativeCall) (bytes : List Nat)
      (s : ImageType → Bool) (sv mg : List Nat → Bool) (buf : List Nat) (nat : RgbaNative),
      (snat.saveCall.status = 0 → (o.type = .UNKNOWN ∨ ss o.type = true) →
        o.StripEXIFOrientation = false → o.StripMetadata = false →
        vipsSave image o ss tn snat =
          (Except.ok snat.outBytes,
            [Event.call (saveBridgeName o.type) [], Event.copyOut snat.saveCall.out,
              Event.freeMem snat.saveCall.out, Event.errClear, Event.unref image])) ∧
      (nc.status = 0 →
        getImageBuffer image nc bytes =
          (Except.ok bytes,
            [Event.call .jpegsaveBridge [], Event.copyOut nc.out, Event.errClear,
              Event.freeMem nc.out])) ∧
      (nc.status = 0 →
        vipsGetMetadataRaw image nc bytes =
          (Except.ok bytes, [Event.call .imageGetBlobNative [], Event.copyOut nc.out])) ∧
      ((RGBAPixels s sv mg buf nat).2.countP isCopyOutEvent = 0) ∧
      (vipsImageType s sv mg buf ≠ .UNKNOWN → nat.readCall.status = 0 →
        nat.pixCall.status = 0 → nat.xsize * nat.ysize * 4 ≤ 2 ^ 28 →
        (RGBAPixels s sv mg buf nat).2 =
          [Event.call .vipsInitImage [-1], Event.call .getRgbaPixelsNative [],
            Event.aliasOut nat.pixCall.out, Event.freeMem 0, Event.unref nat.readCall.out,
            Event.threadExit]) := by
  intro image o ss tn snat nc bytes s sv mg buf nat
  refine ⟨?_, ?_, ?_, ?_, ?_⟩
  · intro h0 hty hexif hsm
    unfold vipsSave
    rw [if_neg (by rcases hty with h | h <;> simp [h])]
    simp [hexif, hsm, h0]
  · intro h0
    simp [getImageBuffer, h0]
  · intro h0
    simp [vipsGetMetadataRaw, h0]
  · have htr : (vipsReadAll s sv mg buf nat.readCall).2.countP isCopyOutEvent = 0 :=
      vipsReadCommon_no_copy s sv mg buf (-1) nat.readCall
    unfold RGBAPixels
    rcases hra : vipsReadAll s sv mg buf nat.readCall with ⟨⟨i?, ty, e?⟩, tr⟩
    rw [hra] at htr
    dsimp only at htr
    rcases i? with _ | img <;> rcases e? with _ | err <;> dsimp only
    · simp [List.countP_append, List.countP_cons, List.countP_nil, isCopyOutEvent, htr]
    · simp [List.countP_append, List.countP_cons, List.countP_nil, isCopyOutEvent, htr]
    · split_ifs <;>
        simp [List.countP_append, List.countP_cons, List.countP_nil, isCopyOutEvent,
          catchVipsError, htr]
    · simp [List.countP_append, List.countP_cons, List.countP_nil, isCopyOutEvent, htr]
  · intro hty h0 h1 h2
    have hread : vipsReadAll s sv mg buf nat.readCall =
        ((some nat.readCall.out, vipsImageType s sv mg buf, none),
          [Event.call .vipsInitImage [-1]]) := by
      unfold vipsReadAll vipsReadCommon
      simp [hty, h0]
    unfold RGBAPixels
    rw [hread]
    dsimp only
    rw [if_neg (by simp [h1]), if_neg (by omega)]
    rfl

/-- Witness for C7 at concrete successful runs. -/
theorem C7_copy_before_release_amended_witness :
    vipsSave 3 ⟨0, 80, 6, .UNKNOWN, false, false, false, false, "", "", 0, false, 0, false,
        false⟩ allSupported (fun _ => "") ⟨false, ⟨0, "", 42⟩, [9, 9]⟩ =
      (Except.ok [9, 9],
        [Event.call .jpegsaveBridge [], Event.copyOut 42, Event.freeMem 42, Event.errClear,
          Event.unref 3]) ∧
    (RGBAPixels allSupported noAux noAux pngHeader12
        ⟨⟨0, "", 6⟩, 1, 1, ⟨0, "", 200⟩, fun _ => 7⟩).2 =
      [Event.call .vipsInitImage [-1], Event.call .getRgbaPixelsNative [],
        Event.aliasOut 200, Event.freeMem 0, Event.unref 6, Event.threadExit] := by
  have h := C7_copy_before_release_amended 3
    ⟨0, 80, 6, .UNKNOWN, false, false, false, false, "", "", 0, false, 0, false, false⟩
    allSupported (fun _ => "") ⟨false, ⟨0, "", 42⟩, [9, 9]⟩ ⟨0, "", 42⟩ [9, 9]
    allSupported noAux noAux pngHeader12 ⟨⟨0, "", 6⟩, 1, 1, ⟨0, "", 200⟩, fun _ => 7⟩
  exact ⟨h.1 rfl (Or.inl rfl) rfl rfl,
    h.2.2.2.2 (by decide) rfl rfl (by decide)⟩

/-- C5, counterexample: recognition is NOT "exactly by the format's magic-byte
signature": this buffer satisfies the WEBP check of the sniffer (bytes 8 to 11
are `WEBP`) and WEBP is supported, yet the sniffer classifies it as PNG,
because the PNG check (bytes 0 to 3) fires first in the priority order. -/
theorem C5_sniffing_not_exact_counterexample :
    vipsImageType allSupported noAux noAux pngWebpClash12 = .PNG ∧
    (pngWebpClash12.getD 8 0 = 0x57 ∧ pngWebpClash12.getD 9 0 = 0x45 ∧
      pngWebpClash12.getD 10 0 = 0x42 ∧ pngWebpClash12.getD 11 0 = 0x50) ∧
    allSupported .WEBP = true ∧ ImageType.PNG ≠ ImageType.WEBP := by
  decide

/-- When SVG and MAGICK support are off, the sniffed type depends only on the
first twelve bytes of the buffer. -/
lemma vipsImageType_first12 (s : ImageType → Bool) (sv1 mg1 sv2 mg2 : List Nat → Bool)
    (b0 b1 b2 b3 b4 b5 b6 b7 b8 b9 b10 b11 : Nat) (r1 r2 : List Nat)
    (hs : s .SVG = false) (hm : s .MAGICK = false) :
    vipsImageType s sv1 mg1
        (b0 :: b1 :: b2 :: b3 :: b4 :: b5 :: b6 :: b7 :: b8 :: b9 :: b10 :: b11 :: r1) =
      vipsImageType s sv2 mg2
        (b0 :: b1 :: b2 :: b3 :: b4 :: b5 :: b6 :: b7 :: b8 :: b9 :: b10 :: b11 :: r2) := by
  have h1 : ¬((b0 :: b1 :: b2 :: b3 :: b4 :: b5 :: b6 :: b7 :: b8 :: b9 :: b10 :: b11 ::
      r1).length < 12) := by
    simp only [List.length_cons]
    omega
  have h2 : ¬((b0 :: b1 :: b2 :: b3 :: b4 :: b5 :: b6 :: b7 :: b8 :: b9 :: b10 :: b11 ::
      r2).length < 12) := by
    simp only [List.length_cons]
    omega
  unfold vipsImageType
  rw [if_neg h1, if_neg h2]
  dsimp only
  simp [hs, hm]

/-- C5, amended: for buffers of at least 12 bytes, and provided the SVG and
MAGICK detectors (which consult the WHOLE buffer) are disabled, the assigned
`ImageType` is a function of the first twelve bytes alone; each listed format
is recognized from its magic bytes subject to the fixed priority order of the
checks, shown here on canonical headers of all ten formats followed by
arbitrary data — and the priority order means a buffer matching both the PNG
and the WEBP check is assigned PNG, not WEBP. -/
theorem C5_first12_priority_sniffing :
    (∀ (s : ImageType → Bool) (sv1 mg1 sv2 mg2 : List Nat → Bool)
        (b0 b1 b2 b3 b4 b5 b6 b7 b8 b9 b10 b11 : Nat) (r1 r2 : List Nat),
        s .SVG = false → s .MAGICK = false →
        vipsImageType s sv1 mg1
            (b0 :: b1 :: b2 :: b3 :: b4 :: b5 :: b6 :: b7 :: b8 :: b9 :: b10 :: b11 :: r1) =
          vipsImageType s sv2 mg2
            (b0 :: b1 :: b2 :: b3 :: b4 :: b5 :: b6 :: b7 :: b8 :: b9 :: b10 :: b11 :: r2)) ∧
    (∀ rest : List Nat,
      vipsImageType supportedNoSvgMagick noAux noAux (jpegHeader12 ++ rest) = .JPEG ∧
      vipsImageType supportedNoSvgMagick noAux noAux (gifHeader12 ++ rest) = .GIF ∧
      vipsImageType supportedNoSvgMagick noAux noAux (pngHeader12 ++ rest) = .PNG ∧
      vipsImageType supportedNoSvgMagick noAux noAux (tiffHeader12 ++ rest) = .TIFF ∧
      vipsImageType supportedNoSvgMagick noAux noAux (pdfHeader12 ++ rest) = .PDF ∧
      vipsImageType supportedNoSvgMagick noAux noAux (webpHeader12 ++ rest) = .WEBP ∧
      vipsImageType supportedNoSvgMagick noAux noAux (heifHeader12 ++ rest) = .HEIF ∧
      vipsImageType supportedNoSvgMagick noAux noAux (avifHeader12 ++ rest) = .AVIF ∧
      vipsImageType supportedNoSvgMagick noAux noAux (jp2kHeader12 ++ rest) = .JP2K ∧
      vipsImageType supportedNoSvgMagick noAux noAux (jxlHeader12 ++ rest) = .JXL ∧
      vipsImageType supportedNoSvgMagick noAux noAux (pngWebpClash12 ++ rest) = .PNG) := by
  constructor
  · intro s sv1 mg1 sv2 mg2 b0 b1 b2 b3 b4 b5 b6 b7 b8 b9 b10 b11 r1 r2 hs hm
    exact vipsImageType_first12 s sv1 mg1 sv2 mg2 b0 b1 b2 b3 b4 b5 b6 b7 b8 b9 b10 b11
      r1 r2 hs hm
  · intro rest
    refine ⟨?_, ?_, ?_, ?_, ?_, ?_, ?_, ?_, ?_, ?_, ?_⟩ <;>
      exact (vipsImageType_first12 supportedNoSvgMagick noAux noAux noAux noAux
        _ _ _ _ _ _ _ _ _ _ _ _ rest [] rfl rfl).trans (by decide)

/-- Witness for C5: two buffers agreeing on their first twelve bytes receive
the same type, and a JPEG header followed by arbitrary data is JPEG. -/
theorem C5_first12_priority_sniffing_witness :
    vipsImageType supportedNoSvgMagick noAux noAux [0, 0, 0, 0, 0, 0, 0, 0, 0, 0, 0, 0, 1] =
      vipsImageType supportedNoSvgMagick noAux noAux [0, 0, 0, 0, 0, 0, 0, 0, 0, 0, 0, 0, 2] ∧
    vipsImageType supportedNoSvgMagick noAux noAux (jpegHeader12 ++ [9]) = .JPEG := by
  exact ⟨C5_first12_priority_sniffing.1 supportedNoSvgMagick noAux noAux noAux noAux
      0 0 0 0 0 0 0 0 0 0 0 0 [1] [2] rfl rfl,
    (C5_first12_priority_sniffing.2 [9]).1⟩

end Bimg
